import Mathlib

/-!
Verification development for the retrieval-and-response pipeline of the
chatbot repository: intent detection (src/utils/intent_detector.py),
document ranking (src/utils/document_processor.py), prompt assembly and
response enhancement (src/utils/response_enhancer.py) and the orchestrator
(src/app/chat_engine.py), shallowly embedded in Lean.  Floating point
similarity and confidence scores are modelled as rationals; the external
classifier, embedding model and generative backend are abstract function
parameters; Python exceptions are modelled with Option (none = raised).
-/

namespace Chatbot

/-- Apostrophe character as a string, used inside text literals. -/
def aq : String := (Char.ofNat 39).toString

/-- Model of Python str.lower (maps each character to lower case). -/
def pyLower (s : String) : String := String.mk (s.data.map Char.toLower)

/-- Model of the Python substring test `needle in haystack` on char lists. -/
def listContains (needle : List Char) : List Char → Bool
  | [] => needle.isEmpty
  | c :: rest => needle.isPrefixOf (c :: rest) || listContains needle rest

/-- Substring test on strings, mirroring Python `sub in s`. -/
def strContains (sub s : String) : Bool := listContains sub.data s.data

/-- Model of a Python list comprehension that can raise on an element:
returns none as soon as f returns none (the raised exception). -/
def mapOption (f : α → Option β) : List α → Option (List β)
  | [] => some []
  | a :: l =>
    match f a, mapOption f l with
    | some b, some l' => some (b :: l')
    | _, _ => none

/-- Model of Python str.strip on a char list. -/
def pyStrip (l : List Char) : List Char :=
  ((l.dropWhile Char.isWhitespace).reverse.dropWhile Char.isWhitespace).reverse

/-- Model of Python str.strip on strings. -/
def pyStripStr (s : String) : String := String.mk (pyStrip s.data)

/-- Model of Python str.replace(old, new, 1): replace the first occurrence. -/
def replaceOnce : List Char → List Char → List Char → List Char
  | [], old, new => if old.isEmpty then new else []
  | c :: rest, old, new =>
    if old.isPrefixOf (c :: rest) then new ++ (c :: rest).drop old.length
    else c :: replaceOnce rest old new

/-- String version of replaceOnce. -/
def pyReplaceOnce (s old new : String) : String :=
  String.mk (replaceOnce s.data old.data new.data)

/-- Model of random.choice over a list: an externally supplied index
selects the element (injectable selection, uniform in production). -/
def pickChoice (l : List String) (idx : Nat) : String := l.getD (idx % l.length) ""

/-- Number of visible (non-whitespace) characters of a char list. -/
def visibleLen (l : List Char) : Nat := (l.filter (fun c => !c.isWhitespace)).length

/-- Floor of a rational, computed on numerator and denominator. -/
def ratFloor (q : ℚ) : ℤ := q.num.fdiv q.den

/-- Round half to even, the rounding used by Python float formatting. -/
def roundHalfEven (q : ℚ) : ℤ :=
  let f := ratFloor q
  let frac := q - (f : ℚ)
  if frac < 1/2 then f
  else if 1/2 < frac then f + 1
  else if f % 2 = 0 then f else f + 1

/-- Model of the Python format specifier :.2f applied to a rational. -/
def fmt2 (q : ℚ) : String :=
  let c := roundHalfEven (q * 100)
  let sign := if c < 0 then "-" else ""
  let a := c.natAbs
  let frac := a % 100
  sign ++ toString (a / 100) ++ "." ++ (if frac < 10 then "0" else "") ++ toString frac

/-! Configuration from src/utils/config.py (loaded once, never mutated). -/

def company_name : String := "Sundew Solutions"

def bot_name : String := "Chetan"

def company_tagline : String := "Digital First. Digital Fast."

def sales_email : String := "sales@sundewsolutions.com"

def support_email : String := "support@sundewsolutions.com"

def careers_email : String := "careers@sundewsolutions.com"

/-- Configured category enumeration (config key categories). -/
def categories : List String :=
  ["general information about the company",
   "company blog posts",
   "career opportunities, vacancies, and recruitment",
   "case studies of past projects",
   "services offered by the company",
   "success stories and client achievements",
   "industry-specific expertise and domain knowledge",
   "company policy and disclaimers"]

/-- Configured category-to-partition mapping (config key category_folders). -/
def category_folders : List (String × String) :=
  [("general information about the company", "data/General/"),
   ("company blog posts", "data/Blog/"),
   ("career opportunities, vacancies, and recruitment", "data/Career and Vacancies/"),
   ("case studies of past projects", "data/Case Studies/"),
   ("services offered by the company", "data/Services/"),
   ("success stories and client achievements", "data/Success Stories/"),
   ("industry-specific expertise and domain knowledge", "data/Industry Expertise/"),
   ("company policy and disclaimers", "data/Policy and Disclaimer/")]

/-- Dictionary lookup self.category_folders[c]; none models a KeyError. -/
def lookupFolder (c : String) : Option String :=
  (category_folders.find? (fun p => p.1 = c)).map Prod.snd

def general_keywords : List String :=
  ["about the company", "overview", "mission", "vision", "culture",
   "contact", "email", "leadership", "ceo", "who we are", "company background"]

def blog_keywords : List String :=
  ["blog", "insights", "articles", "write-up"]

def career_keywords : List String :=
  ["vacancy", "vacancies", "openings", "job position", "job opening",
   "hiring", "hire", "job post", "recruitment", "career", "career path",
   "opportunities", "job opportunities", "career growth", "roles available",
   "employment", "work at"]

def case_keywords : List String :=
  ["case study", "case studies", "project example", "project case",
   "real-world project"]

def services_keywords : List String :=
  ["services", "solutions", "offerings", "what you provide",
   "automation service", "AI services", "document processing",
   "consulting services", "rpa services", "domain knowledge"]

def success_keywords : List String :=
  ["success story", "client success", "testimonial", "achievement",
   "result", "outcome", "benefits for client", "transformation"]

def industry_keywords : List String :=
  ["industry expertise", "domain knowledge", "healthcare expertise",
   "insurance knowledge", "finance domain", "logistics industry",
   "bank", "health", "media", "Food", "beverage", "travel",
   "hospitality", "sector-specific knowledge"]

def policy_keywords : List String :=
  ["privacy policy", "disclaimer", "terms", "conditions", "legal",
   "cookie policy"]

/-- Configured trigger keywords per category, in the configured (dict
insertion) order (config key category_keywords). -/
def category_keywords : List (String × List String) :=
  [("general information about the company", general_keywords),
   ("company blog posts", blog_keywords),
   ("career opportunities, vacancies, and recruitment", career_keywords),
   ("case studies of past projects", case_keywords),
   ("services offered by the company", services_keywords),
   ("success stories and client achievements", success_keywords),
   ("industry-specific expertise and domain knowledge", industry_keywords),
   ("company policy and disclaimers", policy_keywords)]

/-! Intent detector, from src/utils/intent_detector.py.  The zero-shot
classifier is an abstract parameter returning parallel label/score lists,
with none modelling a raised exception. -/

/-- Result of the external zero-shot classifier: labels with parallel
scores, ordered by score descending per the classifier interface. -/
structure ClassifierResult where
  labels : List String
  scores : List ℚ
deriving DecidableEq

/-- IntentResult dictionary returned by detect_intents (the details field,
a per-category echo of the same data, is not modelled). -/
structure IntentResult where
  method : String
  categories : List String
  folders : List String
  confidence : ℚ
deriving DecidableEq

/-- IntentDetector._detect_by_keywords: for each configured category, in
configured order, the first keyword occurring case-insensitively in the
prompt yields one (category, keyword) match. -/
def detect_by_keywords (user_prompt : String) : List (String × String) :=
  let prompt_lower := pyLower user_prompt
  category_keywords.filterMap (fun ck =>
    (ck.2.find? (fun keyword => strContains (pyLower keyword) prompt_lower)).map
      (fun keyword => (ck.1, keyword)))

/-- Body of the try block of IntentDetector._detect_by_ml: classifier call,
top score extraction, margin filtering, in-branch fallback to the default
category, and folder lookup.  none models any raised exception. -/
def detect_by_ml_core (classify : String → List String → Option ClassifierResult)
    (user_prompt : String) (min_confidence score_margin : ℚ) : Option IntentResult :=
  match classify user_prompt categories with
  | none => none
  | some result =>
    match result.scores.head? with
    | none => none
    | some top_score =>
      let selected := (result.labels.zip result.scores).filter
        (fun p => decide (min_confidence ≤ p.2) && decide (top_score - p.2 ≤ score_margin))
      let selected := if selected.isEmpty
        then [("general information about the company", (1 : ℚ))] else selected
      match mapOption (fun p => lookupFolder p.1) selected with
      | none => none
      | some folders =>
        some { method := "ml", categories := selected.map Prod.fst,
               folders := folders, confidence := top_score }

/-- IntentDetector._get_fallback_intent (none models a KeyError on the
folder lookup, impossible with the shipped configuration). -/
def get_fallback_intent : Option IntentResult :=
  (lookupFolder "general information about the company").map (fun f =>
    { method := "fallback",
      categories := ["general information about the company"],
      folders := [f], confidence := 1 })

/-- IntentDetector._detect_by_ml with its try/except: any exception in the
core is converted into the fallback intent. -/
def detect_by_ml (classify : String → List String → Option ClassifierResult)
    (user_prompt : String) (min_confidence score_margin : ℚ) : Option IntentResult :=
  match detect_by_ml_core classify user_prompt min_confidence score_margin with
  | some r => some r
  | none => get_fallback_intent

/-- IntentDetector.detect_intents: keyword pass first, classifier pass only
when no keyword matched.  none models an uncaught KeyError in the keyword
branch (impossible with the shipped configuration). -/
def detect_intents (classify : String → List String → Option ClassifierResult)
    (user_prompt : String) (min_confidence score_margin : ℚ) : Option IntentResult :=
  let keyword_matches := detect_by_keywords user_prompt
  if keyword_matches.isEmpty then
    detect_by_ml classify user_prompt min_confidence score_margin
  else
    match mapOption (fun m => lookupFolder m.1) keyword_matches with
    | none => none
    | some folders =>
      some { method := "keyword", categories := keyword_matches.map Prod.fst,
             folders := folders, confidence := 1 }

/-! Document processor, from src/utils/document_processor.py.  The file
system is a finite map from folder paths to their text files; a folder
absent from the map models a nonexistent directory.  The embedding model
is abstracted as a similarity function from the combined comparison text
to the cosine similarity score against the query embedding. -/

/-- A text file of a corpus partition; readable is false when opening or
reading the file raises (such files are skipped, non-fatally). -/
structure TxtFile where
  name : String
  content : String
  readable : Bool
deriving DecidableEq

/-- File system: association list from folder path to its text files. -/
def FileSystem := List (String × List TxtFile)

/-- Model of os.path.exists plus Path.glob: none when the directory does
not exist. -/
def fsLookup (fs : FileSystem) (p : String) : Option (List TxtFile) :=
  (fs.find? (fun e => e.1 = p)).map Prod.snd

/-- DocumentProcessor._process_folder: skip a missing folder, read each
text file, skip unreadable or empty ones, build the comparison string from
the filename and the first 1000 characters, and retain the document when
the similarity reaches the threshold. -/
def process_folder (sim : String → ℚ) (fs : FileSystem) (folder_path : String)
    (min_similarity : ℚ) : List (ℚ × String × String) :=
  match fsLookup fs folder_path with
  | none => []
  | some files =>
    files.filterMap (fun tf =>
      if !tf.readable then none
      else
        let content := pyStripStr tf.content
        if content.isEmpty then none
        else
          let combined_text := tf.name ++ " " ++ content.take 1000
          let similarity := sim combined_text
          if min_similarity ≤ similarity then some (similarity, tf.name, content)
          else none)

/-- DocumentProcessor.rank_documents: merge per-folder results, sort by
similarity descending (Python list.sort with reverse=True is stable), and
truncate to top_k. -/
def rank_documents (embed_sim : String → String → ℚ) (fs : FileSystem)
    (user_prompt : String) (folders : List String) (top_k : Nat)
    (min_similarity : ℚ) : List (ℚ × String × String) :=
  let results := folders.flatMap
    (fun folder => process_folder (embed_sim user_prompt) fs folder min_similarity)
  (results.mergeSort (fun a b => decide (b.1 ≤ a.1))).take top_k

/-! Response enhancer, from src/utils/response_enhancer.py.  Randomness
(random.choice and random.random) is modelled by injectable parameters:
an index selecting the CTA variant and a coin for the tagline branch. -/

/-- User profile mapping passed by the session collaborator; absent keys
are none, and Python truthiness treats the empty string like an absent
key. -/
structure UserData where
  name : Option String := none
  email : Option String := none
  user_type : Option String := none
  company_size : Option String := none
  selected_service : Option String := none
deriving DecidableEq

/-- Python truthiness of user_data.get(key): false for an absent key and
for the empty string. -/
def truthy (o : Option String) : Bool := !(o.getD "").isEmpty

/-- ResponseEnhancer._build_user_context: only present (truthy) fields are
rendered, in fixed order. -/
def build_user_context (u : UserData) : String :=
  let context_parts : List String :=
    (if truthy u.name then ["- User name: " ++ u.name.getD ""] else []) ++
    (if truthy u.email then
      let email := u.email.getD ""
      let domain := if email.data.contains '@' then (email.splitOn "@").getD 1 "" else ""
      ["- Email domain: " ++ domain]
     else []) ++
    (if truthy u.user_type then ["- User type: " ++ u.user_type.getD ""] else []) ++
    (if truthy u.company_size then ["- Company size: " ++ u.company_size.getD ""] else []) ++
    (if truthy u.selected_service then ["- Interested in: " ++ u.selected_service.getD ""] else [])
  if context_parts.isEmpty then "- New user interaction"
  else String.intercalate "\n" context_parts

/-- ResponseEnhancer._build_intent_context: top two categories, detection
method, and confidence rounded to two decimals; falsy fields omitted. -/
def build_intent_context (intents : IntentResult) : String :=
  let context_parts : List String :=
    (if !intents.categories.isEmpty then
      ["- Primary topics: " ++ String.intercalate ", " (intents.categories.take 2)]
     else []) ++
    (if intents.method ≠ "" then ["- Detection method: " ++ intents.method] else []) ++
    (if intents.confidence ≠ 0 then ["- Confidence: " ++ fmt2 intents.confidence] else [])
  if context_parts.isEmpty then "- General inquiry"
  else String.intercalate "\n" context_parts

/-- Fixed preamble of ResponseEnhancer.build_professional_prompt (the
triple-quoted f-string with the configured company values filled in). -/
def base_prompt_text : String :=
  "\n        You are " ++ bot_name ++ ", a professional business assistant at " ++
  company_name ++ ".\n" ++
  "        \n" ++
  "        Your role:\n" ++
  "        - Answer user questions clearly, concisely, and accurately using company-provided data\n" ++
  "        - Maintain a helpful, professional, and business-appropriate tone\n" ++
  "        - If unsure about specific details, acknowledge limitations and offer to connect with human experts\n" ++
  "        - Always include relevant resource links when available\n" ++
  "        - Focus on providing value to the user\n" ++
  "        \n" ++
  "        Company Context:\n" ++
  "        - " ++ company_name ++ ": Digital transformation company\n" ++
  "        - Tagline: " ++ company_tagline ++ "\n" ++
  "        - Services: AI/Automation, Custom Development, Cloud Solutions, Digital Experience\n" ++
  "        - Contact: " ++ sales_email ++ " for sales, " ++ support_email ++ " for support\n" ++
  "        "

/-- ResponseEnhancer.build_professional_prompt: fixed-order concatenation
of the preamble, the optional user context, the optional intent context,
and the question. -/
def build_professional_prompt (user_question : String) (user_data : Option UserData)
    (intents : Option IntentResult) : String :=
  let base_prompt := base_prompt_text
  let base_prompt := match user_data with
    | some u => base_prompt ++ "\n\nUser Context:\n" ++ build_user_context u
    | none => base_prompt
  let base_prompt := match intents with
    | some i => base_prompt ++ "\n\nDetected Intent:\n" ++ build_intent_context i
    | none => base_prompt
  base_prompt ++ "\n\nUser Question: " ++ user_question ++
    "\n\nProvide a helpful, accurate response:"

/-- ResponseEnhancer._add_personalization: splice the known name into a
greeting and append one sentence of user-type specific framing. -/
def add_personalization (response : String) (user_data : Option UserData) : String :=
  match user_data with
  | none => response
  | some u =>
    let name := u.name.getD ""
    let user_type := u.user_type.getD ""
    let response :=
      if name ≠ "" && !strContains (pyLower name) (pyLower response) then
        if response.startsWith "Hi" || response.startsWith "Hello" then
          pyReplaceOnce (pyReplaceOnce response "Hi" ("Hi " ++ name))
            "Hello" ("Hello " ++ name)
        else "Hi " ++ name ++ "! " ++ response
      else response
    if user_type = "potential_client" && !strContains "business" (pyLower response) then
      response ++ "\n\nAs a business looking for solutions, I" ++ aq ++
        "d be happy to discuss how we can specifically help your company grow."
    else if user_type = "job_seeker" && !strContains "career" (pyLower response) then
      response ++ "\n\nSince you" ++ aq ++
        "re interested in career opportunities, I can also share information about our company culture and current openings."
    else response

/-- CTA candidate set of the service family. -/
def serviceCtas : List String :=
  ["📞 **Ready to discuss your project?** Contact our sales team at " ++ sales_email,
   "📋 **Want to see similar projects?** Check out our case studies",
   "💬 **Need a custom solution?** Let" ++ aq ++ "s schedule a consultation"]

/-- CTA candidate set of the career family. -/
def careerCtas : List String :=
  ["💼 **Ready to apply?** Send your resume to " ++ careers_email,
   "🌟 **Learn about our culture:** Visit our careers page",
   "📝 **Current openings:** Check our latest job postings"]

/-- CTA candidate set of the case-study family. -/
def caseCtas : List String :=
  ["🎯 **Interested in similar results?** Let" ++ aq ++ "s discuss your requirements",
   "📈 **Want to see more examples?** Browse our complete case studies",
   "💡 **Have a similar challenge?** Get a free consultation"]

/-- The category loop of ResponseEnhancer._add_contextual_ctas: the first
detected category containing service, career, or case/success (in that
test order per category) selects its family and breaks the loop. -/
def collectCtas : List String → List String
  | [] => []
  | category :: rest =>
    let c := pyLower category
    if strContains "service" c then serviceCtas
    else if strContains "career" c then careerCtas
    else if strContains "case" c || strContains "success" c then caseCtas
    else collectCtas rest

/-- ResponseEnhancer._add_contextual_ctas: append one CTA picked from the
first two candidates of the selected family set. -/
def add_contextual_ctas (response : String) (intents : Option IntentResult)
    (_user_data : Option UserData) (choice_idx : Nat) : String :=
  match intents with
  | none => response
  | some i =>
    let ctas := collectCtas i.categories
    if ctas.isEmpty then response
    else response ++ "\n\n---\n\n" ++ pickChoice (ctas.take 2) choice_idx

/-- ResponseEnhancer._add_branding_elements: with the injected coin (the
30 percent random draw) append the tagline; for service categories append
the expertise statement. -/
def add_branding_elements (response : String) (intents : Option IntentResult)
    (tagline_coin : Bool) : String :=
  let response :=
    if tagline_coin then
      response ++ "\n\n*" ++ company_name ++ ": " ++ company_tagline ++ "*"
    else response
  let cats := (intents.map IntentResult.categories).getD []
  if cats.any (fun cat => strContains "service" (pyLower cat)) then
    response ++ "\n\n💡 *With 8+ years of digital transformation expertise, " ++
      company_name ++ " has helped 100+ businesses achieve their goals.*"
  else response

/-- Model of re.sub applied to the header pattern (newline, one to six
hash marks taken greedily, one whitespace character) replaced by the same
text with one extra newline in front; scanning resumes after the match. -/
def headerSub : List Char → List Char
  | '\n' :: '#' :: '#' :: '#' :: '#' :: '#' :: '#' :: c :: rest =>
    if c.isWhitespace then
      '\n' :: '\n' :: '#' :: '#' :: '#' :: '#' :: '#' :: '#' :: c :: headerSub rest
    else '\n' :: headerSub ('#' :: '#' :: '#' :: '#' :: '#' :: '#' :: c :: rest)
  | '\n' :: '#' :: '#' :: '#' :: '#' :: '#' :: c :: rest =>
    if c.isWhitespace then
      '\n' :: '\n' :: '#' :: '#' :: '#' :: '#' :: '#' :: c :: headerSub rest
    else '\n' :: headerSub ('#' :: '#' :: '#' :: '#' :: '#' :: c :: rest)
  | '\n' :: '#' :: '#' :: '#' :: '#' :: c :: rest =>
    if c.isWhitespace then
      '\n' :: '\n' :: '#' :: '#' :: '#' :: '#' :: c :: headerSub rest
    else '\n' :: headerSub ('#' :: '#' :: '#' :: '#' :: c :: rest)
  | '\n' :: '#' :: '#' :: '#' :: c :: rest =>
    if c.isWhitespace then '\n' :: '\n' :: '#' :: '#' :: '#' :: c :: headerSub rest
    else '\n' :: headerSub ('#' :: '#' :: '#' :: c :: rest)
  | '\n' :: '#' :: '#' :: c :: rest =>
    if c.isWhitespace then '\n' :: '\n' :: '#' :: '#' :: c :: headerSub rest
    else '\n' :: headerSub ('#' :: '#' :: c :: rest)
  | '\n' :: '#' :: c :: rest =>
    if c.isWhitespace then '\n' :: '\n' :: '#' :: c :: headerSub rest
    else '\n' :: headerSub ('#' :: c :: rest)
  | c :: rest => c :: headerSub rest
  | [] => []

/-- Model of re.sub replacing newline, dash, one whitespace character by
newline, newline, dash, space. -/
def dashSub : List Char → List Char
  | '\n' :: '-' :: c :: rest =>
    if c.isWhitespace then '\n' :: '\n' :: '-' :: ' ' :: dashSub rest
    else '\n' :: dashSub ('-' :: c :: rest)
  | c :: rest => c :: dashSub rest
  | [] => []

/-- Model of re.sub replacing newline, asterisk, one whitespace character
by newline, newline, asterisk, space. -/
def starSub : List Char → List Char
  | '\n' :: '*' :: c :: rest =>
    if c.isWhitespace then '\n' :: '\n' :: '*' :: ' ' :: starSub rest
    else '\n' :: starSub ('*' :: c :: rest)
  | c :: rest => c :: starSub rest
  | [] => []

/-- Scanner collapsing each run of three or more newlines to exactly two
(the flag records that the current run has already been emitted). -/
def collapseAux : Bool → List Char → List Char
  | _, [] => []
  | true, '\n' :: rest => collapseAux true rest
  | true, c :: rest => c :: collapseAux false rest
  | false, '\n' :: '\n' :: '\n' :: rest => '\n' :: '\n' :: collapseAux true rest
  | false, c :: rest => c :: collapseAux false rest

/-- Model of re.sub collapsing three or more consecutive newlines to two. -/
def collapseNewlines (l : List Char) : List Char := collapseAux false l

/-- ResponseEnhancer._format_response: the four normalization passes in
source order, ending with strip. -/
def format_response (response : String) : String :=
  String.mk (pyStrip (collapseNewlines (starSub (dashSub (headerSub response.data)))))

/-- ResponseEnhancer.enhance_response: personalization, contextual CTA,
branding, then formatting. -/
def enhance_response (base_response : String) (intents : Option IntentResult)
    (user_data : Option UserData) (choice_idx : Nat) (tagline_coin : Bool) : String :=
  let enhanced_response := base_response
  let enhanced_response := add_personalization enhanced_response user_data
  let enhanced_response := add_contextual_ctas enhanced_response intents user_data choice_idx
  let enhanced_response := add_branding_elements enhanced_response intents tagline_coin
  format_response enhanced_response

/-- CTA family, specification-side view for the amended C9 claim. -/
inductive CtaFamily
  | service
  | career
  | caseStudy
deriving DecidableEq

/-- Family a single category belongs to, per the substring tests of the
source. -/
def famOf (category : String) : Option CtaFamily :=
  let c := pyLower category
  if strContains "service" c then some CtaFamily.service
  else if strContains "career" c then some CtaFamily.career
  else if strContains "case" c || strContains "success" c then some CtaFamily.caseStudy
  else none

/-- Candidate CTA set of a family. -/
def famCtas : CtaFamily → List String
  | CtaFamily.service => serviceCtas
  | CtaFamily.career => careerCtas
  | CtaFamily.caseStudy => caseCtas

/-! Chat engine orchestration, from src/app/chat_engine.py.  The LLM
backend is an abstract optional function from the assembled prompt to the
raw reply (none models the missing OpenAI key). -/

/-- The apologetic reply of the orchestrator-boundary except handler. -/
def error_reply : String :=
  "I apologize, but I encountered an error. Please try rephrasing your question."

/-- ChatEngine._generate_fallback_response: templated guidance keyed on
the first detected category plus the contact pointer. -/
def generate_fallback_response (intents : IntentResult)
    (_user_data : Option UserData) : String :=
  let response := "I" ++ aq ++
    "d be happy to help you with information about Sundew Solutions! "
  let response := match intents.categories.head? with
    | none => response
    | some category =>
      if strContains "service" (pyLower category) then
        response ++ "We offer comprehensive digital transformation services including AI chatbots, custom web development, and automation solutions. "
      else if strContains "career" (pyLower category) then
        response ++ "We" ++ aq ++
          "re always looking for talented individuals! Check out our careers page for current openings. "
      else if strContains "case" (pyLower category) then
        response ++ "Our case studies showcase successful projects across various industries. "
      else response
  response ++
    "For specific information, please contact our team at sales@sundewsolutions.com or visit our website."

/-- ChatEngine.process_user_input: detect intents, rank documents in the
detected partitions, then either run the generation-and-enhancement path
(documents found and backend configured) or return the deterministic
fallback; the surrounding try/except converts any exception (modelled by
a none from detect_intents) into the apologetic error reply. -/
def process_user_input (classify : String → List String → Option ClassifierResult)
    (embed_sim : String → String → ℚ) (fs : FileSystem)
    (llm : Option (String → String)) (min_confidence min_similarity : ℚ)
    (choice_idx : Nat) (tagline_coin : Bool)
    (user_input : String) (user_data : Option UserData) : String :=
  match detect_intents classify user_input min_confidence (1/20) with
  | none => error_reply
  | some intents =>
    let matched_docs :=
      rank_documents embed_sim fs user_input intents.folders 3 min_similarity
    if !matched_docs.isEmpty && llm.isSome then
      let enhanced_prompt := build_professional_prompt user_input user_data (some intents)
      let response := (llm.getD id) enhanced_prompt
      enhance_response response (some intents) user_data choice_idx tagline_coin
    else
      generate_fallback_response intents user_data

/-! Helper lemmas. -/

/-- Specification of mapOption: success yields a list of the same length
whose entries are the successful images, pointwise. -/
theorem mapOption_spec (f : α → Option β) (l : List α) :
    ∀ l', mapOption f l = some l' →
      l'.length = l.length ∧ ∀ p ∈ l.zip l', f p.1 = some p.2 := by
  induction l with
  | nil =>
    intro l' h
    simp only [mapOption, Option.some.injEq] at h
    subst h
    simp
  | cons a l ih =>
    intro l' h
    simp only [mapOption] at h
    cases hfa : f a <;> rw [hfa] at h
    · exact absurd h (by simp)
    · cases hml : mapOption f l <;> rw [hml] at h
      · exact absurd h (by simp)
      · rename_i b l₀
        simp only [Option.some.injEq] at h
        subst h
        obtain ⟨hlen, hmem⟩ := ih l₀ hml
        refine ⟨by simp [hlen], ?_⟩
        intro p hp
        rw [List.zip_cons_cons, List.mem_cons] at hp
        rcases hp with hp | hp
        · subst hp; exact hfa
        · exact hmem p hp

/-- mapOption succeeds when f succeeds on every element. -/
theorem mapOption_total (f : α → Option β) (l : List α)
    (h : ∀ a ∈ l, (f a).isSome) : ∃ l', mapOption f l = some l' := by
  induction l with
  | nil => exact ⟨[], rfl⟩
  | cons a l ih =>
    obtain ⟨b, hb⟩ := Option.isSome_iff_exists.mp (h a (List.mem_cons_self a l))
    obtain ⟨l', hl'⟩ := ih (fun x hx => h x (List.mem_cons_of_mem a hx))
    exact ⟨b :: l', by simp [mapOption, hb, hl']⟩

/-- Successful folder lookup over a selection gives aligned category and
folder lists. -/
theorem aligned_of_mapOption {γ : Type} {sel : List (String × γ)} {folders : List String}
    (hm : mapOption (fun p => lookupFolder p.1) sel = some folders) :
    (sel.map Prod.fst).length = folders.length ∧
      ∀ q ∈ (sel.map Prod.fst).zip folders, lookupFolder q.1 = some q.2 := by
  obtain ⟨hlen, hmem⟩ := mapOption_spec _ _ _ hm
  refine ⟨by simp [hlen], ?_⟩
  intro q hq
  rw [List.zip_map_left] at hq
  obtain ⟨p, hp, rfl⟩ := List.mem_map.mp hq
  exact hmem p hp

/-- Alignment property for the ml pass in isolation. -/
theorem detect_by_ml_core_aligned (classify : String → List String → Option ClassifierResult)
    (user_prompt : String) (mc sm : ℚ) (r : IntentResult)
    (h : detect_by_ml_core classify user_prompt mc sm = some r) :
    r.categories.length = r.folders.length ∧
      ∀ p ∈ r.categories.zip r.folders, lookupFolder p.1 = some p.2 := by
  simp only [detect_by_ml_core] at h
  split at h
  · exact absurd h (by simp)
  · split at h
    · exact absurd h (by simp)
    · split at h
      · exact absurd h (by simp)
      · rename_i folders heq
        simp only [Option.some.injEq] at h
        subst h
        exact aligned_of_mapOption heq

/-- C10: every branch of detect_intents (keyword, ml including its
in-branch fallback, and the exception fallback) returns categories and
folders lists of equal length, the folder at each index being the
configured category_folders entry of the category at that index. -/
theorem detect_intents_aligned (classify : String → List String → Option ClassifierResult)
    (user_prompt : String) (mc sm : ℚ) (r : IntentResult)
    (h : detect_intents classify user_prompt mc sm = some r) :
    r.categories.length = r.folders.length ∧
      ∀ p ∈ r.categories.zip r.folders, lookupFolder p.1 = some p.2 := by
  simp only [detect_intents] at h
  split at h
  · simp only [detect_by_ml] at h
    split at h
    · rename_i r₀ hcore
      simp only [Option.some.injEq] at h
      subst h
      exact detect_by_ml_core_aligned classify user_prompt mc sm r₀ hcore
    · have hfb : get_fallback_intent =
          some { method := "fallback",
                 categories := ["general information about the company"],
                 folders := ["data/General/"], confidence := 1 } := rfl
      rw [hfb] at h
      simp only [Option.some.injEq] at h
      rw [← h]
      refine ⟨rfl, ?_⟩
      intro p hp
      simp only [List.zip_cons_cons, List.zip_nil_left, List.mem_singleton] at hp
      subst hp
      rfl
  · split at h
    · exact absurd h (by simp)
    · rename_i folders heq
      simp only [Option.some.injEq] at h
      subst h
      exact aligned_of_mapOption heq

/-- Witness for C10 at a concrete input (classifier failure path). -/
theorem detect_intents_aligned_witness :
    detect_intents (fun _ _ => none) "xyzzy" 1 0 =
      some { method := "fallback",
             categories := ["general information about the company"],
             folders := ["data/General/"], confidence := 1 } ∧
    (["general information about the company"].length = ["data/General/"].length ∧
      ∀ p ∈ List.zip ["general information about the company"] ["data/General/"],
        lookupFolder p.1 = some p.2) :=
  ⟨by decide, detect_intents_aligned (fun _ _ => none) "xyzzy" 1 0
    { method := "fallback",
      categories := ["general information about the company"],
      folders := ["data/General/"], confidence := 1 } (by decide)⟩

/-- Every category key of the shipped configuration has a folder. -/
theorem config_folders_total :
    ∀ ck ∈ category_keywords, (lookupFolder ck.1).isSome = true := by decide

/-- Every keyword match carries a configured category. -/
theorem keyword_match_mem_config {m : String × String} {user_prompt : String}
    (hm : m ∈ detect_by_keywords user_prompt) :
    ∃ ck ∈ category_keywords, m.1 = ck.1 := by
  unfold detect_by_keywords at hm
  obtain ⟨ck, hck, hfck⟩ := List.mem_filterMap.mp hm
  refine ⟨ck, hck, ?_⟩
  cases hfind : ck.2.find?
      (fun keyword => strContains (pyLower keyword) (pyLower user_prompt)) <;>
    rw [hfind] at hfck
  · exact absurd hfck (by simp)
  · simp only [Option.map_some', Option.some.injEq] at hfck
    rw [← hfck]

/-- C2 counterexample: the utterance "contact blog" contains the
configured keyword "blog" of the category "company blog posts", the
result has method keyword, but that category is not first in the returned
categories list (the earlier-configured general-information category is),
refuting the claim as stated. -/
theorem C2_counterexample :
    strContains (pyLower "blog") (pyLower "contact blog") = true ∧
    ("company blog posts", blog_keywords) ∈ category_keywords ∧
    "blog" ∈ blog_keywords ∧
    (detect_intents (fun _ _ => none) "contact blog" 1 0).map IntentResult.method
      = some "keyword" ∧
    (detect_intents (fun _ _ => none) "contact blog" 1 0).map IntentResult.categories
      = some ["general information about the company", "company blog posts"] ∧
    (["general information about the company", "company blog posts"] : List String).head?
      ≠ some "company blog posts" := by decide

/-- C2 (amended): for every utterance containing a configured trigger
keyword as a case-insensitive substring, detect_intents returns method
keyword with confidence 1.0 and that keyword's category appears in the
returned categories list (in configured-category order, so not
necessarily first). -/
theorem C2_keyword_detection (user_prompt kw cat : String) (kws : List String)
    (hcat : (cat, kws) ∈ category_keywords) (hkw : kw ∈ kws)
    (hsub : strContains (pyLower kw) (pyLower user_prompt) = true)
    (classify : String → List String → Option ClassifierResult) (mc sm : ℚ) :
    ∃ r, detect_intents classify user_prompt mc sm = some r ∧
      r.method = "keyword" ∧ r.confidence = 1 ∧ cat ∈ r.categories := by
  have hfs : (kws.find?
      (fun keyword => strContains (pyLower keyword) (pyLower user_prompt))).isSome :=
    List.find?_isSome.mpr ⟨kw, hkw, hsub⟩
  obtain ⟨kw', hkw'⟩ := Option.isSome_iff_exists.mp hfs
  have hmem : (cat, kw') ∈ detect_by_keywords user_prompt := by
    unfold detect_by_keywords
    exact List.mem_filterMap.mpr ⟨(cat, kws), hcat, by rw [hkw']; rfl⟩
  have hne : (detect_by_keywords user_prompt).isEmpty = false := by
    cases hd : detect_by_keywords user_prompt with
    | nil => rw [hd] at hmem; exact absurd hmem (List.not_mem_nil _)
    | cons a l => rfl
  have hsome : ∀ m ∈ detect_by_keywords user_prompt, (lookupFolder m.1).isSome := by
    intro m hm
    obtain ⟨ck, hck, hmck⟩ := keyword_match_mem_config hm
    rw [hmck]
    exact config_folders_total ck hck
  obtain ⟨folders, hfold⟩ := mapOption_total _ _ hsome
  refine ⟨{ method := "keyword",
            categories := (detect_by_keywords user_prompt).map Prod.fst,
            folders := folders, confidence := 1 }, ?_, rfl, rfl, ?_⟩
  · simp only [detect_intents, hne, Bool.false_eq_true, if_false, hfold]
  · exact List.mem_map.mpr ⟨(cat, kw'), hmem, rfl⟩

/-- Witness for C2 (amended) at a concrete utterance. -/
theorem C2_keyword_detection_witness :
    (("company blog posts", blog_keywords) ∈ category_keywords ∧
      "blog" ∈ blog_keywords ∧
      strContains (pyLower "blog") (pyLower "Tell me about your BLOG") = true) ∧
    ∃ r, detect_intents (fun _ _ => none) "Tell me about your BLOG" 1 0 = some r ∧
      r.method = "keyword" ∧ r.confidence = 1 ∧ "company blog posts" ∈ r.categories :=
  ⟨⟨by decide, by decide, by decide⟩,
   C2_keyword_detection "Tell me about your BLOG" "blog" "company blog posts"
     blog_keywords (by decide) (by decide) (by decide) (fun _ _ => none) 1 0⟩

/-- C4: with no keyword match, a classifier invocation that raises is not
propagated: detect_intents returns the fallback IntentResult with the
single default category and confidence 1.0, method fallback. -/
theorem C4_classifier_failure_fallback (user_prompt : String) (mc sm : ℚ)
    (classify : String → List String → Option ClassifierResult)
    (hkw : detect_by_keywords user_prompt = [])
    (hfail : classify user_prompt categories = none) :
    detect_intents classify user_prompt mc sm =
      some { method := "fallback",
             categories := ["general information about the company"],
             folders := ["data/General/"], confidence := 1 } := by
  simp only [detect_intents, hkw, List.isEmpty_nil, if_true,
    detect_by_ml, detect_by_ml_core, hfail]
  rfl

/-- Witness for C4 at a concrete utterance and failing classifier. -/
theorem C4_classifier_failure_fallback_witness :
    (detect_by_keywords "xyzzy" = [] ∧
      (fun (_ : String) (_ : List String) => (none : Option ClassifierResult))
        "xyzzy" categories = none) ∧
    detect_intents (fun _ _ => none) "xyzzy" 1 0 =
      some { method := "fallback",
             categories := ["general information about the company"],
             folders := ["data/General/"], confidence := 1 } :=
  ⟨⟨by decide, rfl⟩,
   C4_classifier_failure_fallback "xyzzy" 1 0 (fun _ _ => none) (by decide) rfl⟩

/-- C3 counterexample: no keyword match, the classifier runs successfully,
no category survives the filters; the result carries the single default
category but its method is ml (not fallback) and its confidence is the
classifier top score (not 1.0), refuting the claim as stated. -/
theorem C3_counterexample :
    detect_by_keywords "xyzzy" = [] ∧
    detect_intents
        (fun _ _ => some { labels := ["services offered by the company"], scores := [0] })
        "xyzzy" 1 0 =
      some { method := "ml",
             categories := ["general information about the company"],
             folders := ["data/General/"], confidence := 0 } ∧
    ("ml" : String) ≠ "fallback" ∧ (0 : ℚ) ≠ 1 := by decide

/-- C3 (amended): with no keyword match, when the classifier runs
successfully but no category passes both the confidence and margin
filters, detect_intents returns exactly the single default category, with
method ml and confidence equal to the classifier top score. -/
theorem C3_no_survivor_default_category (user_prompt : String) (mc sm top : ℚ)
    (labels : List String) (scores : List ℚ)
    (classify : String → List String → Option ClassifierResult)
    (hkw : detect_by_keywords user_prompt = [])
    (hcl : classify user_prompt categories = some { labels := labels, scores := scores })
    (htop : scores.head? = some top)
    (hsel : (labels.zip scores).filter
        (fun p => decide (mc ≤ p.2) && decide (top - p.2 ≤ sm)) = []) :
    detect_intents classify user_prompt mc sm =
      some { method := "ml",
             categories := ["general information about the company"],
             folders := ["data/General/"], confidence := top } := by
  simp only [detect_intents, hkw, List.isEmpty_nil, if_true,
    detect_by_ml, detect_by_ml_core, hcl, htop, hsel, List.isEmpty_nil, if_true]
  rfl

/-- Witness for C3 (amended) at a concrete classifier outcome. -/
theorem C3_no_survivor_default_category_witness :
    (detect_by_keywords "xyzzy" = [] ∧
      ((["services offered by the company"].zip [(0 : ℚ)]).filter
        (fun p => decide ((1 : ℚ) ≤ p.2) && decide ((0 : ℚ) - p.2 ≤ 0)) = [])) ∧
    detect_intents
        (fun _ _ => some { labels := ["services offered by the company"], scores := [0] })
        "xyzzy" 1 0 =
      some { method := "ml",
             categories := ["general information about the company"],
             folders := ["data/General/"], confidence := 0 } :=
  ⟨⟨by decide, by decide⟩,
   C3_no_survivor_default_category "xyzzy" 1 0 0
     ["services offered by the company"] [0] (fun _ _ => _) (by decide) rfl rfl
     (by decide)⟩

/-- Every document retained by process_folder scored at least the
threshold. -/
theorem process_folder_score_ge {sim : String → ℚ} {fs : FileSystem}
    {folder_path : String} {min_similarity : ℚ} {d : ℚ × String × String}
    (hd : d ∈ process_folder sim fs folder_path min_similarity) :
    min_similarity ≤ d.1 := by
  unfold process_folder at hd
  split at hd
  · exact absurd hd (List.not_mem_nil _)
  · obtain ⟨tf, _htf, hf⟩ := List.mem_filterMap.mp hd
    simp only at hf
    split at hf
    · exact absurd hf (by simp)
    · split at hf
      · exact absurd hf (by simp)
      · split at hf
        · rename_i hle
          simp only [Option.some.injEq] at hf
          rw [← hf]
          exact hle
        · exact absurd hf (by simp)

/-- C1: for every utterance, partition folder list, topK and
minSimilarity, the list returned by rank_documents is sorted
non-increasing by similarity score, every element scores at least
minSimilarity, and its length is at most topK. -/
theorem rank_documents_sorted_filtered_bounded (embed_sim : String → String → ℚ)
    (fs : FileSystem) (user_prompt : String) (folders : List String)
    (top_k : Nat) (min_similarity : ℚ) :
    (rank_documents embed_sim fs user_prompt folders top_k min_similarity).Pairwise
        (fun a b => b.1 ≤ a.1) ∧
    (∀ d ∈ rank_documents embed_sim fs user_prompt folders top_k min_similarity,
        min_similarity ≤ d.1) ∧
    (rank_documents embed_sim fs user_prompt folders top_k min_similarity).length
      ≤ top_k := by
  have htrans : ∀ a b c : ℚ × String × String,
      decide (b.1 ≤ a.1) = true → decide (c.1 ≤ b.1) = true →
      decide (c.1 ≤ a.1) = true := by
    intro a b c hab hbc
    rw [decide_eq_true_eq] at *
    exact le_trans hbc hab
  have htotal : ∀ a b : ℚ × String × String,
      (decide (b.1 ≤ a.1) || decide (a.1 ≤ b.1)) = true := by
    intro a b
    rcases le_total b.1 a.1 with h | h <;> simp [h]
  refine ⟨?_, ?_, ?_⟩
  · have hp := List.sorted_mergeSort htrans htotal
      (folders.flatMap
        (fun folder => process_folder (embed_sim user_prompt) fs folder min_similarity))
    have hp2 := hp.imp (fun h => of_decide_eq_true h)
    exact List.Pairwise.sublist (List.take_sublist _ _) hp2
  · intro d hd
    unfold rank_documents at hd
    have hd2 := List.Sublist.mem hd (List.take_sublist _ _)
    rw [List.mem_mergeSort] at hd2
    obtain ⟨folder, _hfolder, hdf⟩ := List.mem_flatMap.mp hd2
    exact process_folder_score_ge hdf
  · unfold rank_documents
    rw [List.length_take]
    exact min_le_left _ _

/-- A folder whose directory does not exist contributes nothing. -/
theorem process_folder_missing_empty (sim : String → ℚ) (fs : FileSystem)
    (folder_path : String) (min_similarity : ℚ)
    (hmiss : fsLookup fs folder_path = none) :
    process_folder sim fs folder_path min_similarity = [] := by
  unfold process_folder
  rw [hmiss]

/-- C8: a partition folder whose directory does not exist contributes no
documents and does not raise; ranking over the remaining folders is
unchanged. -/
theorem rank_documents_skips_missing_folder (embed_sim : String → String → ℚ)
    (fs : FileSystem) (user_prompt folder : String) (pre post : List String)
    (top_k : Nat) (min_similarity : ℚ)
    (hmiss : fsLookup fs folder = none) :
    process_folder (embed_sim user_prompt) fs folder min_similarity = [] ∧
    rank_documents embed_sim fs user_prompt (pre ++ folder :: post) top_k
        min_similarity =
      rank_documents embed_sim fs user_prompt (pre ++ post) top_k min_similarity := by
  have h1 := process_folder_missing_empty (embed_sim user_prompt) fs folder
    min_similarity hmiss
  refine ⟨h1, ?_⟩
  unfold rank_documents
  have h2 : (pre ++ folder :: post).flatMap
        (fun f => process_folder (embed_sim user_prompt) fs f min_similarity) =
      (pre ++ post).flatMap
        (fun f => process_folder (embed_sim user_prompt) fs f min_similarity) := by
    simp [List.flatMap_append, List.flatMap_cons, h1]
  rw [h2]

/-- Witness for C8 on the empty file system. -/
theorem rank_documents_skips_missing_folder_witness :
    fsLookup ([] : FileSystem) "data/General/" = none ∧
    (process_folder ((fun (_ : String) (_ : String) => (0 : ℚ)) "q") ([] : FileSystem)
        "data/General/" 0 = [] ∧
     rank_documents (fun _ _ => (0 : ℚ)) ([] : FileSystem) "q"
        ([] ++ "data/General/" :: ["data/Blog/"]) 3 0 =
       rank_documents (fun _ _ => (0 : ℚ)) ([] : FileSystem) "q"
        ([] ++ ["data/Blog/"]) 3 0) :=
  ⟨rfl, rank_documents_skips_missing_folder (fun _ _ => (0 : ℚ)) ([] : FileSystem)
    "q" "data/General/" [] ["data/Blog/"] 3 0 rfl⟩

/-- C5: prompt assembly is a deterministic function of its inputs; two
calls on identical utterance, user profile and intent result produce
byte-identical prompt strings. -/
theorem build_professional_prompt_deterministic (q₁ q₂ : String)
    (ud₁ ud₂ : Option UserData) (i₁ i₂ : Option IntentResult)
    (hq : q₁ = q₂) (hu : ud₁ = ud₂) (hi : i₁ = i₂) :
    build_professional_prompt q₁ ud₁ i₁ = build_professional_prompt q₂ ud₂ i₂ := by
  subst hq
  subst hu
  subst hi
  rfl

/-- Witness for C5 at concrete identical inputs. -/
theorem build_professional_prompt_deterministic_witness :
    ("What services do you offer?" : String) = "What services do you offer?" ∧
    build_professional_prompt "What services do you offer?" none none =
      build_professional_prompt "What services do you offer?" none none :=
  ⟨rfl, build_professional_prompt_deterministic "What services do you offer?"
    "What services do you offer?" none none none none rfl rfl rfl⟩

/-- When no detected category matches any CTA family the source loop
collects nothing. -/
theorem collectCtas_of_find_none (cats : List String)
    (h : cats.find? (fun c => (famOf c).isSome) = none) : collectCtas cats = [] := by
  induction cats with
  | nil => rfl
  | cons cat rest ih =>
    rw [List.find?_cons] at h
    split at h
    · exact absurd h (by simp)
    · rename_i hp
      have hnone : famOf cat = none := by
        cases hf : famOf cat with
        | none => rfl
        | some f => rw [hf] at hp; simp at hp
      simp only [famOf] at hnone
      simp only [collectCtas]
      split_ifs at hnone ⊢ with h1 h2 h3
      exact ih h

/-- The source loop collects exactly the family of the first detected
category that matches some family. -/
theorem collectCtas_of_find_some (cats : List String) (cat : String) (f : CtaFamily)
    (h : cats.find? (fun c => (famOf c).isSome) = some cat)
    (hf : famOf cat = some f) : collectCtas cats = famCtas f := by
  induction cats with
  | nil => exact absurd h (by simp)
  | cons c0 rest ih =>
    rw [List.find?_cons] at h
    split at h
    · rename_i hp
      simp only [Option.some.injEq] at h
      subst h
      simp only [famOf] at hf
      simp only [collectCtas]
      split_ifs at hf ⊢ with h1 h2 h3
      · simp only [Option.some.injEq] at hf
        rw [← hf]
        rfl
      · simp only [Option.some.injEq] at hf
        rw [← hf]
        rfl
      · simp only [Option.some.injEq] at hf
        rw [← hf]
        rfl
    · rename_i hp
      have hnone : famOf c0 = none := by
        cases hfc : famOf c0 with
        | none => rfl
        | some g => rw [hfc] at hp; simp at hp
      simp only [famOf] at hnone
      simp only [collectCtas]
      split_ifs at hnone ⊢ with h1 h2 h3
      exact ih h

/-- The injected selection picks an element of a nonempty list. -/
theorem pickChoice_mem {l : List String} (h : l ≠ []) (idx : Nat) :
    pickChoice l idx ∈ l := by
  unfold pickChoice
  have hlen : 0 < l.length := List.length_pos.mpr h
  have hmod : idx % l.length < l.length := Nat.mod_lt _ hlen
  rw [List.getD_eq_getElem l "" hmod]
  exact List.getElem_mem hmod

/-- C9 counterexample: with detected categories [career, services], the
claimed fixed family priority (service before career) would append a
service CTA, but the code keys the family on the first detected category
and appends a career CTA, which is in no service candidate set. -/
theorem C9_counterexample :
    strContains "service" (pyLower "services offered by the company") = true ∧
    add_contextual_ctas "Hello"
        (some { method := "keyword",
                categories := ["career opportunities, vacancies, and recruitment",
                               "services offered by the company"],
                folders := ["data/Career and Vacancies/", "data/Services/"],
                confidence := 1 }) none 0 =
      "Hello" ++ "\n\n---\n\n" ++
        ("💼 **Ready to apply?** Send your resume to " ++ careers_email) ∧
    ("💼 **Ready to apply?** Send your resume to " ++ careers_email) ∈ careerCtas ∧
    ("💼 **Ready to apply?** Send your resume to " ++ careers_email) ∉ serviceCtas := by
  decide

/-- C9 (amended): the CTA step appends exactly one CTA line chosen from
the first two candidates of the family of the first detected category
matching any family (families tested per category in the order service,
career, case/success); when no detected category matches a family, the
reply is unchanged. -/
theorem C9_cta_from_first_matching_category (response : String) (i : IntentResult)
    (ud : Option UserData) (choice_idx : Nat) :
    (i.categories.find? (fun c => (famOf c).isSome) = none →
      add_contextual_ctas response (some i) ud choice_idx = response) ∧
    (∀ cat f, i.categories.find? (fun c => (famOf c).isSome) = some cat →
      famOf cat = some f →
      ∃ c ∈ (famCtas f).take 2,
        add_contextual_ctas response (some i) ud choice_idx =
          response ++ "\n\n---\n\n" ++ c) := by
  constructor
  · intro h
    have hc := collectCtas_of_find_none i.categories h
    simp [add_contextual_ctas, hc]
  · intro cat f hfind hfam
    have hc := collectCtas_of_find_some i.categories cat f hfind hfam
    have hne : (famCtas f).take 2 ≠ [] := by
      cases f <;> simp [famCtas, serviceCtas, careerCtas, caseCtas]
    have hemp : (famCtas f).isEmpty = false := by cases f <;> rfl
    refine ⟨pickChoice ((famCtas f).take 2) choice_idx, pickChoice_mem hne _, ?_⟩
    simp [add_contextual_ctas, hc, hemp]

/-- Witness for C9 (amended): no category matches a family, the reply is
unchanged. -/
theorem C9_cta_from_first_matching_category_witness :
    ((["company blog posts"] : List String).find? (fun c => (famOf c).isSome)
        = none) ∧
    add_contextual_ctas "Hi"
        (some { method := "keyword", categories := ["company blog posts"],
                folders := ["data/Blog/"], confidence := 1 }) none 0 = "Hi" :=
  ⟨by decide,
   (C9_cta_from_first_matching_category "Hi"
     { method := "keyword", categories := ["company blog posts"],
       folders := ["data/Blog/"], confidence := 1 } none 0).1 (by decide)⟩

/-- The fallback reply always ends with the contact-pointer sentence. -/
theorem generate_fallback_response_suffix (intents : IntentResult)
    (ud : Option UserData) :
    ∃ x, generate_fallback_response intents ud = x ++
      "For specific information, please contact our team at sales@sundewsolutions.com or visit our website." := by
  unfold generate_fallback_response
  exact ⟨_, rfl⟩

/-- The sales contact address occurs in the contact-pointer sentence. -/
theorem sales_email_in_contact_sentence :
    sales_email.data <:+:
      ("For specific information, please contact our team at sales@sundewsolutions.com or visit our website." : String).data :=
  ⟨("For specific information, please contact our team at " : String).data,
   (" or visit our website." : String).data, by decide⟩

/-- C7: when the ranked documents are empty or no generative backend is
configured, process_user_input returns the deterministic fallback reply
keyed on the first detected category, without applying the enhancement
step, and that reply contains the sales contact address. -/
theorem process_user_input_fallback
    (classify : String → List String → Option ClassifierResult)
    (embed_sim : String → String → ℚ) (fs : FileSystem)
    (llm : Option (String → String)) (mc ms : ℚ) (choice_idx : Nat)
    (tagline_coin : Bool) (user_input : String) (ud : Option UserData)
    (intents : IntentResult)
    (hdet : detect_intents classify user_input mc (1/20) = some intents)
    (hcond : rank_documents embed_sim fs user_input intents.folders 3 ms = [] ∨
      llm = none) :
    process_user_input classify embed_sim fs llm mc ms choice_idx tagline_coin
        user_input ud = generate_fallback_response intents ud ∧
    sales_email.data <:+:
      (process_user_input classify embed_sim fs llm mc ms choice_idx tagline_coin
        user_input ud).data := by
  have hcondb :
      (!(rank_documents embed_sim fs user_input intents.folders 3 ms).isEmpty &&
        llm.isSome) = false := by
    rcases hcond with h | h
    · rw [h]
      rfl
    · rw [h]
      simp
  have hmain : process_user_input classify embed_sim fs llm mc ms choice_idx
      tagline_coin user_input ud = generate_fallback_response intents ud := by
    unfold process_user_input
    rw [hdet]
    simp only [hcondb, Bool.false_eq_true, if_false]
  refine ⟨hmain, ?_⟩
  rw [hmain]
  obtain ⟨x, hx⟩ := generate_fallback_response_suffix intents ud
  rw [hx]
  refine List.IsInfix.trans sales_email_in_contact_sentence ?_
  refine List.IsSuffix.isInfix ?_
  rw [String.data_append]
  exact List.suffix_append _ _

/-- Witness for C7: missing backend, empty corpus, classifier failure. -/
theorem process_user_input_fallback_witness :
    (detect_intents (fun _ _ => none) "xyzzy" 1 (1/20) =
        some { method := "fallback",
               categories := ["general information about the company"],
               folders := ["data/General/"], confidence := 1 } ∧
      (rank_documents (fun _ _ => (0 : ℚ)) ([] : FileSystem) "xyzzy"
          ["data/General/"] 3 0 = [] ∨
        (none : Option (String → String)) = none)) ∧
    (process_user_input (fun _ _ => none) (fun _ _ => (0 : ℚ)) ([] : FileSystem)
        none 1 0 0 false "xyzzy" none =
      generate_fallback_response
        { method := "fallback",
          categories := ["general information about the company"],
          folders := ["data/General/"], confidence := 1 } none ∧
     sales_email.data <:+:
       (process_user_input (fun _ _ => none) (fun _ _ => (0 : ℚ)) ([] : FileSystem)
         none 1 0 0 false "xyzzy" none).data) :=
  ⟨⟨by decide, Or.inr rfl⟩,
   process_user_input_fallback (fun _ _ => none) (fun _ _ => (0 : ℚ))
     ([] : FileSystem) none 1 0 0 false "xyzzy" none
     { method := "fallback",
       categories := ["general information about the company"],
       folders := ["data/General/"], confidence := 1 } (by decide) (Or.inr rfl)⟩

/-! Visible-content accounting for C6. -/

@[simp] theorem isWhitespace_nl : ('\n' : Char).isWhitespace = true := by decide

@[simp] theorem isWhitespace_hash : ('#' : Char).isWhitespace = false := by decide

@[simp] theorem isWhitespace_dash : ('-' : Char).isWhitespace = false := by decide

@[simp] theorem isWhitespace_star : ('*' : Char).isWhitespace = false := by decide

@[simp] theorem isWhitespace_space : (' ' : Char).isWhitespace = true := by decide

theorem visibleLen_cons (c : Char) (l : List Char) :
    visibleLen (c :: l) = (if c.isWhitespace then 0 else 1) + visibleLen l := by
  unfold visibleLen
  rw [List.filter_cons]
  cases h : c.isWhitespace
  · simp [h]
    omega
  · simp [h]

theorem visibleLen_append (a b : List Char) :
    visibleLen (a ++ b) = visibleLen a + visibleLen b := by
  unfold visibleLen
  rw [List.filter_append, List.length_append]

theorem visibleLen_le_length (l : List Char) : visibleLen l ≤ l.length :=
  List.length_filter_le _ _

theorem visibleLen_reverse (l : List Char) : visibleLen l.reverse = visibleLen l := by
  induction l with
  | nil => rfl
  | cons c l ih =>
    rw [List.reverse_cons, visibleLen_append, visibleLen_cons c l, ih]
    have h0 : visibleLen [c] = (if c.isWhitespace then 0 else 1) + visibleLen [] :=
      visibleLen_cons c []
    have h1 : visibleLen ([] : List Char) = 0 := rfl
    omega

theorem visibleLen_dropWhile_ws (l : List Char) :
    visibleLen (l.dropWhile Char.isWhitespace) = visibleLen l := by
  induction l with
  | nil => rfl
  | cons c l ih =>
    rw [List.dropWhile_cons]
    cases h : c.isWhitespace
    · simp [h]
    · simp [h, visibleLen_cons, ih]

theorem visibleLen_pyStrip (l : List Char) : visibleLen (pyStrip l) = visibleLen l := by
  unfold pyStrip
  rw [visibleLen_reverse, visibleLen_dropWhile_ws, visibleLen_reverse,
    visibleLen_dropWhile_ws]

theorem visibleLen_headerSub (l : List Char) :
    visibleLen (headerSub l) = visibleLen l := by
  induction l using headerSub.induct <;>
    simp_all [headerSub, visibleLen_cons]

theorem visibleLen_dashSub (l : List Char) : visibleLen (dashSub l) = visibleLen l := by
  induction l using dashSub.induct <;>
    simp_all [dashSub, visibleLen_cons]

theorem visibleLen_starSub (l : List Char) : visibleLen (starSub l) = visibleLen l := by
  induction l using starSub.induct <;>
    simp_all [starSub, visibleLen_cons]

theorem visibleLen_collapseAux (b : Bool) (l : List Char) :
    visibleLen (collapseAux b l) = visibleLen l := by
  induction b, l using collapseAux.induct <;>
    simp_all [collapseAux, visibleLen_cons]

theorem visibleLen_format_response (s : String) :
    visibleLen (format_response s).data = visibleLen s.data := by
  show visibleLen (pyStrip (collapseAux false (starSub (dashSub (headerSub s.data)))))
    = visibleLen s.data
  rw [visibleLen_pyStrip, visibleLen_collapseAux, visibleLen_starSub,
    visibleLen_dashSub, visibleLen_headerSub]

theorem visibleLen_replaceOnce (s old new : List Char)
    (h : visibleLen old ≤ visibleLen new) :
    visibleLen s ≤ visibleLen (replaceOnce s old new) := by
  induction s with
  | nil =>
    unfold replaceOnce
    have h0 : visibleLen ([] : List Char) = 0 := rfl
    by_cases ho : old.isEmpty = true
    · simp only [ho, if_true]
      omega
    · rw [Bool.not_eq_true] at ho
      simp only [ho, Bool.false_eq_true, if_false]
      omega
  | cons c rest ih =>
    unfold replaceOnce
    by_cases hp : old.isPrefixOf (c :: rest) = true
    · simp only [hp, if_true]
      have hpre : old <+: c :: rest := List.isPrefixOf_iff_prefix.mp hp
      obtain ⟨t, ht⟩ := hpre
      have hdrop : (c :: rest).drop old.length = t := by
        rw [← ht]
        exact List.drop_left _ _
      rw [hdrop, ← ht, visibleLen_append, visibleLen_append]
      omega
    · rw [Bool.not_eq_true] at hp
      simp only [hp, Bool.false_eq_true, if_false]
      rw [visibleLen_cons, visibleLen_cons]
      exact Nat.add_le_add_left ih _

theorem visibleLen_pyReplaceOnce (s old new : String)
    (h : visibleLen old.data ≤ visibleLen new.data) :
    visibleLen s.data ≤ visibleLen (pyReplaceOnce s old new).data :=
  visibleLen_replaceOnce s.data old.data new.data h

theorem visibleLen_add_personalization (s : String) (ud : Option UserData) :
    visibleLen s.data ≤ visibleLen (add_personalization s ud).data := by
  cases ud with
  | none => exact le_of_eq rfl
  | some u =>
    have hhi : visibleLen ("Hi" : String).data ≤
        visibleLen ("Hi " ++ u.name.getD "").data := by
      rw [String.data_append, visibleLen_append]
      have h2 : visibleLen ("Hi" : String).data = 2 := by decide
      have h3 : visibleLen ("Hi " : String).data = 2 := by decide
      omega
    have hhello : visibleLen ("Hello" : String).data ≤
        visibleLen ("Hello " ++ u.name.getD "").data := by
      rw [String.data_append, visibleLen_append]
      have h2 : visibleLen ("Hello" : String).data = 5 := by decide
      have h3 : visibleLen ("Hello " : String).data = 5 := by decide
      omega
    have hc : visibleLen s.data ≤ visibleLen
        (pyReplaceOnce (pyReplaceOnce s "Hi" ("Hi " ++ u.name.getD ""))
          "Hello" ("Hello " ++ u.name.getD "")).data :=
      le_trans (visibleLen_pyReplaceOnce s "Hi" ("Hi " ++ u.name.getD "") hhi)
        (visibleLen_pyReplaceOnce _ "Hello" ("Hello " ++ u.name.getD "") hhello)
    have hp : visibleLen s.data ≤
        visibleLen ("Hi " ++ u.name.getD "" ++ "! " ++ s).data := by
      simp only [String.data_append, visibleLen_append]
      omega
    simp only [add_personalization]
    split_ifs <;> (try simp only [String.data_append, visibleLen_append]) <;> omega

theorem visibleLen_add_contextual_ctas (s : String) (intents : Option IntentResult)
    (ud : Option UserData) (choice_idx : Nat) :
    visibleLen s.data ≤ visibleLen (add_contextual_ctas s intents ud choice_idx).data := by
  cases intents with
  | none => exact le_of_eq rfl
  | some i =>
    simp only [add_contextual_ctas]
    split_ifs with h
    · exact le_of_eq rfl
    · simp only [String.data_append, visibleLen_append]
      omega

theorem visibleLen_add_branding_elements (s : String) (intents : Option IntentResult)
    (tagline_coin : Bool) :
    visibleLen s.data ≤ visibleLen (add_branding_elements s intents tagline_coin).data := by
  unfold add_branding_elements
  cases tagline_coin <;>
    by_cases h2 : (((Option.map IntentResult.categories intents).getD []).any
      fun cat => strContains "service" (pyLower cat)) = true <;>
    simp [h2, String.data_append, visibleLen_append]

/-- C6: for every non-empty raw reply and every intent result and user
profile (and any CTA selection and branding coin), the enhanced reply is
at least as long as the visible (non-whitespace) content of the raw
reply: enhancement only appends or splices, and formatting removes only
whitespace. -/
theorem enhance_response_no_content_loss (base_response : String)
    (intents : Option IntentResult) (user_data : Option UserData)
    (choice_idx : Nat) (tagline_coin : Bool) (_hne : base_response ≠ "") :
    visibleLen base_response.data ≤
      (enhance_response base_response intents user_data choice_idx tagline_coin).length := by
  unfold enhance_response
  have h1 := visibleLen_add_personalization base_response user_data
  have h2 := visibleLen_add_contextual_ctas
    (add_personalization base_response user_data) intents user_data choice_idx
  have h3 := visibleLen_add_branding_elements
    (add_contextual_ctas (add_personalization base_response user_data) intents
      user_data choice_idx) intents tagline_coin
  have h4 := visibleLen_format_response
    (add_branding_elements
      (add_contextual_ctas (add_personalization base_response user_data) intents
        user_data choice_idx) intents tagline_coin)
  have h5 := visibleLen_le_length
    (format_response
      (add_branding_elements
        (add_contextual_ctas (add_personalization base_response user_data) intents
          user_data choice_idx) intents tagline_coin)).data
  show visibleLen base_response.data ≤
    (format_response
      (add_branding_elements
        (add_contextual_ctas (add_personalization base_response user_data) intents
          user_data choice_idx) intents tagline_coin)).data.length
  omega

/-- Witness for C6 at a concrete non-empty reply. -/
theorem enhance_response_no_content_loss_witness :
    ("Hello" : String) ≠ "" ∧
    visibleLen ("Hello" : String).data ≤
      (enhance_response "Hello" none none 0 false).length :=
  ⟨by decide, enhance_response_no_content_loss "Hello" none none 0 false (by decide)⟩

end Chatbot
